import Mathlib

/-!
Shallow embedding of `src/device.c` from the knot-virtualthing gateway
(the control-plane device module), together with theorems settling the
frozen claims about it.

Modelling conventions:

* C integers become `Int` (or `Nat` for the 8-bit connectivity mask,
  whose bit operations are taken modulo nothing because only `&&&` with
  sub-byte constants is involved in the proved facts).
* The opaque `knot_value_type` union is modelled as `Int`: `device.c`
  never inspects it, it only copies and forwards values.
* External collaborators that `device.c` calls through pointers
  (`iface_modbus_read_data`, `config_check_value`) are passed in as
  function parameters (oracles), so every theorem quantifies over their
  behaviour unless a claim pins it down.
* The ell hashmap that backs the sensor registry is not part of this
  repository; it is modelled as an association list, with the lookup
  returning the first matching key and the insert following the spec's
  registry contract (see `l_hashmap_insert`).
* The emission `sm_input_event(evt, payload)` is modelled by returning
  the list of emitted events.
-/

namespace Knot

/-- Token length constant from the KNoT protocol headers (not under
`src/`); its exact value is irrelevant to every claim, only that the
token is truncated to this declared width. -/
def KNOT_PROTOCOL_TOKEN_LEN : Nat := 40

/-- The `errno` constant `EINVAL` (Linux value 22); `device.c` returns
`-EINVAL` for a poll tick whose sensor id is not registered. -/
def EINVAL : Int := 22

/-- Events fed to the control state machine via `sm_input_event`. -/
inductive sm_event where
  | EVT_READY
  | EVT_NOT_READY
  | EVT_REG_OK (token : String)
  | EVT_REG_NOT_OK
  | EVT_AUTH_OK
  | EVT_AUTH_NOT_OK
  | EVT_SCH_OK
  | EVT_SCH_NOT_OK
  | EVT_DATA_UPDT (list : List Int)
  | EVT_PUB_DATA (list : List Int)
  | EVT_UNREG_REQ
  | EVT_TIMEOUT
deriving DecidableEq, Repr

/-- Mirror of `struct modbus_source`: register address and bit offset. -/
structure modbus_source where
  reg_addr : Int
  bit_offset : Int
deriving DecidableEq, Repr

/-- Mirror of `struct modbus_slave`. -/
structure modbus_slave where
  id : Int
  url : String
deriving DecidableEq, Repr

/-- Mirror of `knot_schema`: the fields `device.c` carries verbatim.
Only `value_type` is ever read by the device module. -/
structure knot_schema where
  value_type : Int
  unit : Int
  type_id : Int
  name : String
deriving DecidableEq, Repr

/-- Mirror of `knot_config`. `device.c` never inspects it, it only
stores it and hands it to the external `config_check_value`, so it is a
single opaque payload here. -/
structure knot_config where
  raw : Int
deriving DecidableEq, Repr

/-- Mirror of `struct knot_data_item`. `l_new` zero-initialises the
struct, so a freshly inserted item has `current_val = sent_val = 0`. -/
structure knot_data_item where
  sensor_id : Int
  config : knot_config
  schema : knot_schema
  current_val : Int
  sent_val : Int
  modbus_source : modbus_source
deriving DecidableEq, Repr

/-- The sensor registry: the ell hashmap keyed by `L_INT_TO_PTR(id)`,
modelled as an association list. -/
abbrev Registry := List (Int × knot_data_item)

/-- Mirror of `struct l_timeout` as far as `device.c` observes it: the
deadline it was armed with. -/
structure l_timeout where
  seconds : Int
deriving DecidableEq, Repr

/-- Mirror of `struct knot_thing` (the process-global `thing`).
Pointer-valued collaborator configuration is kept as plain strings. -/
structure knot_thing where
  token : String
  id : String
  name : String
  user_token : String
  modbus_slave : modbus_slave
  rabbitmq_url : String
  credentials_path : String
  data_items : Registry
  msg_to : Option l_timeout
deriving DecidableEq, Repr

/-- Lookup in the registry: `l_hashmap_lookup` returns the first entry
whose key matches. -/
def l_hashmap_lookup : Registry → Int → Option knot_data_item
  | [], _ => none
  | (k, v) :: rest, key => if k = key then some v else l_hashmap_lookup rest key

/-- Modelled from the spec: the ell hashmap (`l_hashmap_insert`) is an
external collaborator whose source is not under `src/`; the spec's
registry contract (section 4.1) states that insert with an
already-present id replaces the prior entry, so the model replaces the
first entry with the given key and otherwise appends. -/
def l_hashmap_insert : Registry → Int → knot_data_item → Registry
  | [], key, v => [(key, v)]
  | (k, w) :: rest, key, v =>
      if k = key then (key, v) :: rest
      else (k, w) :: l_hashmap_insert rest key v

/-- In-place mutation of the struct returned by `l_hashmap_lookup`
(C writes through the pointer): replace the value of the first entry
with the given key, leave the registry unchanged if the key is absent. -/
def registry_update_item : Registry → Int → knot_data_item → Registry
  | [], _, _ => []
  | (k, w) :: rest, key, v =>
      if k = key then (key, v) :: rest
      else (k, w) :: registry_update_item rest key v

theorem l_hashmap_lookup_insert (m : Registry) (k : Int) (v : knot_data_item) :
    l_hashmap_lookup (l_hashmap_insert m k v) k = some v := by
  induction m with
  | nil => simp [l_hashmap_insert, l_hashmap_lookup]
  | cons hd tl ih =>
      obtain ⟨k', w⟩ := hd
      by_cases h : k' = k
      · subst h
        simp [l_hashmap_insert, l_hashmap_lookup]
      · simp [l_hashmap_insert, l_hashmap_lookup, h, ih]

theorem l_hashmap_lookup_update (m : Registry) (k : Int) (v x : knot_data_item)
    (h : l_hashmap_lookup m k = some x) :
    l_hashmap_lookup (registry_update_item m k v) k = some v := by
  induction m with
  | nil => simp [l_hashmap_lookup] at h
  | cons hd tl ih =>
      obtain ⟨k', w⟩ := hd
      by_cases hk : k' = k
      · subst hk
        simp [registry_update_item, l_hashmap_lookup]
      · simp [registry_update_item, l_hashmap_lookup, hk] at h ⊢
        exact ih h

/-- Mirror of `device_set_new_data_item`: allocate a zeroed item, fill
in id, schema, config and Modbus source, and insert it keyed by the
sensor id. -/
def device_set_new_data_item (thing : knot_thing) (sensor_id : Int)
    (schema : knot_schema) (config : knot_config)
    (reg_addr : Int) (bit_offset : Int) : knot_thing :=
  { thing with
      data_items := l_hashmap_insert thing.data_items sensor_id
        { sensor_id := sensor_id
          config := config
          schema := schema
          current_val := 0
          sent_val := 0
          modbus_source := { reg_addr := reg_addr, bit_offset := bit_offset } } }

/-- Mirror of `device_data_item_lookup`. -/
def device_data_item_lookup (thing : knot_thing) (sensor_id : Int) :
    Option knot_data_item :=
  l_hashmap_lookup thing.data_items sensor_id

/-- Mirror of `device_get_id`. -/
def device_get_id (thing : knot_thing) : String :=
  thing.id

/-- Mirror of `device_clear_thing_id` (truncates the C string). -/
def device_clear_thing_id (thing : knot_thing) : knot_thing :=
  { thing with id := "" }

/-- Mirror of `device_clear_thing_token`. -/
def device_clear_thing_token (thing : knot_thing) : knot_thing :=
  { thing with token := "" }

/-- Mirror of `device_has_thing_token` (`token[0] != the terminator`). -/
def device_has_thing_token (thing : knot_thing) : Bool :=
  thing.token ≠ ""

/-- Kinds of inbound cloud messages (`knot_cloud_msg.type`), including
the sentinel `MSG_TYPES_LENGTH`; any out-of-enum value falls into the
same `default` arm as the sentinel, so it is represented by it. -/
inductive msg_type where
  | UPDATE_MSG
  | REQUEST_MSG
  | REGISTER_MSG
  | UNREGISTER_MSG
  | AUTH_MSG
  | SCHEMA_MSG
  | LIST_MSG
  | MSG_TYPES_LENGTH
deriving DecidableEq, Repr

/-- Mirror of `struct knot_cloud_msg` as far as `on_cloud_receive`
reads it: kind, error flag, issued token, sensor-id list. -/
structure knot_cloud_msg where
  type : msg_type
  error : Bool
  token : String
  list : List Int
deriving DecidableEq, Repr

/-- Mirror of `on_cloud_receive`: the cloud ingress router. The result
is the list of events handed to `sm_input_event` plus the boolean the C
callback returns (always `true`). -/
def on_cloud_receive (msg : knot_cloud_msg) : List sm_event × Bool :=
  match msg.type with
  | .UPDATE_MSG =>
      (if !msg.error then [.EVT_DATA_UPDT msg.list] else [], true)
  | .REQUEST_MSG =>
      (if !msg.error then [.EVT_PUB_DATA msg.list] else [], true)
  | .REGISTER_MSG =>
      (if msg.error then [.EVT_REG_NOT_OK] else [.EVT_REG_OK msg.token], true)
  | .UNREGISTER_MSG =>
      (if !msg.error then [.EVT_UNREG_REQ] else [], true)
  | .AUTH_MSG =>
      (if msg.error then [.EVT_AUTH_NOT_OK] else [.EVT_AUTH_OK], true)
  | .SCHEMA_MSG =>
      (if msg.error then [.EVT_SCH_NOT_OK] else [.EVT_SCH_OK], true)
  | .LIST_MSG => ([], true)
  | .MSG_TYPES_LENGTH => ([], true)

/-- Connectivity constants from `device.c`. -/
def CONNECTED_MASK : Nat := 0xFF

/-- Bit pattern of `CONN_TYPE.MODBUS`. -/
def MODBUS : Nat := 0x0F

/-- Bit pattern of `CONN_TYPE.CLOUD`. -/
def CLOUD : Nat := 0xF0

/-- Mirror of the `set_conn_bitmask` macro on the 8-bit mask:
`is_up ? b1 | b2 : b1 & ~b2` (the 8-bit complement is `0xFF ^^^ b2`). -/
def set_conn_bitmask (is_up : Bool) (b1 b2 : Nat) : Nat :=
  if is_up then b1 ||| b2 else b1 &&& (0xFF ^^^ b2)

/-- Mirror of `conn_handler`: update the static connection mask and
emit `EVT_READY` iff the mask equals `CONNECTED_MASK`, else
`EVT_NOT_READY`. Returns the new mask with the emitted event. -/
def conn_handler (conn_mask : Nat) (conn : Nat) (is_up : Bool) :
    Nat × sm_event :=
  let m := set_conn_bitmask is_up conn_mask conn
  if m ≠ CONNECTED_MASK then (m, .EVT_NOT_READY) else (m, .EVT_READY)

/-- Observable action a connection callback performs on the poller. -/
inductive poll_action where
  | nop
  | start
  | stop
deriving DecidableEq, Repr

/-- Mirror of `on_cloud_disconnected`: it only logs and calls
`conn_handler(CLOUD, false)`; it does not touch the poller. -/
def on_cloud_disconnected (conn_mask : Nat) : poll_action × Nat × sm_event :=
  (.nop, conn_handler conn_mask CLOUD false)

/-- Mirror of `on_cloud_connected`. -/
def on_cloud_connected (conn_mask : Nat) : poll_action × Nat × sm_event :=
  (.nop, conn_handler conn_mask CLOUD true)

/-- Mirror of `on_modbus_disconnected`: stops the poller with
`poll_stop` and then signals the tracker. -/
def on_modbus_disconnected (conn_mask : Nat) : poll_action × Nat × sm_event :=
  (.stop, conn_handler conn_mask MODBUS false)

/-- Mirror of `on_modbus_connected`. -/
def on_modbus_connected (conn_mask : Nat) : poll_action × Nat × sm_event :=
  (.start, conn_handler conn_mask MODBUS true)

/-- Mirror of `device_msg_timeout_create`: a no-op when the single slot
`thing.msg_to` is occupied, else install a timer armed at `seconds`. -/
def device_msg_timeout_create (thing : knot_thing) (seconds : Int) : knot_thing :=
  match thing.msg_to with
  | some _ => thing
  | none => { thing with msg_to := some { seconds := seconds } }

/-- Mirror of `device_msg_timeout_modify` (`l_timeout_modify` re-arms
the existing timer; with an empty slot it is a harmless no-op). -/
def device_msg_timeout_modify (thing : knot_thing) (seconds : Int) : knot_thing :=
  { thing with msg_to := thing.msg_to.map (fun _ => { seconds := seconds }) }

/-- Mirror of `device_msg_timeout_remove`: drop the timer and empty the
slot. -/
def device_msg_timeout_remove (thing : knot_thing) : knot_thing :=
  { thing with msg_to := none }

/-- Mirror of `device_store_credentials_on_file`. The external
`properties_store_credentials` result is passed in as `store_rc`; on
failure the function returns `-1` without touching the in-memory token,
on success it copies at most `KNOT_PROTOCOL_TOKEN_LEN` characters of the
token into `thing.token` (`strncpy`) and returns `0`. -/
def device_store_credentials_on_file (store_rc : Int) (thing : knot_thing)
    (token : String) : knot_thing × Int :=
  if store_rc < 0 then (thing, -1)
  else ({ thing with token := token.take KNOT_PROTOCOL_TOKEN_LEN }, 0)

/-- Hexadecimal rendering performed by `sprintf(buf, "%" PRIx64, id)`:
minimal width, lowercase digits, and `"0"` for zero. `Nat.toDigits 16`
uses exactly these digit characters. -/
def sprintf_hex64 (n : Nat) : String :=
  ⟨Nat.toDigits 16 (n % 2 ^ 64)⟩

/-- Mirror of `device_generate_thing_id`: draw a random `uint64` (the
draw is the `random_draw` argument here) and render it into `thing.id`
with `"%" PRIx64`. -/
def device_generate_thing_id (random_draw : Nat) (thing : knot_thing) : knot_thing :=
  { thing with id := sprintf_hex64 random_draw }

/-- One call to `knot_cloud_publish_data` as observed at the event
boundary: device id, sensor id, declared value type and the value sent. -/
structure publication where
  device_id : String
  sensor_id : Int
  value_type : Int
  value : Int
deriving DecidableEq, Repr

/-- Mirror of `on_publish_data`: look the sensor up; if absent return
without publishing, else publish the item's current value (the cloud
client's return code only drives logging, so it is not modelled). -/
def on_publish_data (thing : knot_thing) (sensor_id : Int) : Option publication :=
  match l_hashmap_lookup thing.data_items sensor_id with
  | none => none
  | some data_item =>
      some { device_id := thing.id
             sensor_id := data_item.sensor_id
             value_type := data_item.schema.value_type
             value := data_item.current_val }

/-- Mirror of `device_publish_data_list`: `l_queue_foreach` over the
sensor-id list, calling `on_publish_data` on each element in order.
The result collects the publications actually emitted. -/
def device_publish_data_list (thing : knot_thing) : List Int → List publication
  | [] => []
  | sensor_id :: rest =>
      (match on_publish_data thing sensor_id with
       | none => []
       | some p => [p]) ++ device_publish_data_list thing rest

/-- Mirror of `on_modbus_poll_receive`, the per-sensor poll tick.
`iface_modbus_read_data` (external) is an oracle taking the register
address, the bit offset and the value currently in the buffer and
returning the read's return code together with the buffer contents
after the call; `config_check_value` (external) is the change
evaluator. The result is the updated thing, the events handed to
`sm_input_event`, and the tick's return code. -/
def on_modbus_poll_receive
    (iface_modbus_read_data : Int → Int → Int → Int × Int)
    (config_check_value : knot_config → Int → Int → Int → Int)
    (thing : knot_thing) (id : Int) : knot_thing × List sm_event × Int :=
  match l_hashmap_lookup thing.data_items id with
  | none => (thing, [], -EINVAL)
  | some data_item =>
      let r := iface_modbus_read_data data_item.modbus_source.reg_addr
        data_item.modbus_source.bit_offset data_item.current_val
      let item1 := { data_item with current_val := r.2 }
      if config_check_value item1.config item1.current_val item1.sent_val
          item1.schema.value_type > 0 then
        let item2 := { item1 with sent_val := item1.current_val }
        ({ thing with data_items := registry_update_item thing.data_items id item2 },
         [.EVT_PUB_DATA [id]], r.1)
      else
        ({ thing with data_items := registry_update_item thing.data_items id item1 },
         [], r.1)

/-- Modelled from the spec: the control state machine (`sm.c`) is not
under `src/`. In the ONLINE state it handles `EVT_PUB_DATA(list)` by
publishing each listed sensor's current value (spec section 4.5, which
the device module implements as `device_publish_data_list`); every
other event publishes nothing. -/
def events_to_publications (thing : knot_thing) : List sm_event → List publication
  | [] => []
  | .EVT_PUB_DATA l :: rest =>
      device_publish_data_list thing l ++ events_to_publications thing rest
  | _ :: rest => events_to_publications thing rest

/-- One poll tick followed by the ONLINE state machine's handling of
the events it emitted: the publications are produced from the post-tick
state, which is the state at publication time. -/
def poll_tick_then_publish
    (iface_modbus_read_data : Int → Int → Int → Int × Int)
    (config_check_value : knot_config → Int → Int → Int → Int)
    (thing : knot_thing) (id : Int) : knot_thing × List publication × Int :=
  let r := on_modbus_poll_receive iface_modbus_read_data config_check_value thing id
  (r.1, events_to_publications r.1 r.2.1, r.2.2)

theorem device_publish_data_list_append (thing : knot_thing) (l1 l2 : List Int) :
    device_publish_data_list thing (l1 ++ l2) =
      device_publish_data_list thing l1 ++ device_publish_data_list thing l2 := by
  induction l1 with
  | nil => simp [device_publish_data_list]
  | cons a t ih => simp [device_publish_data_list, ih]

/-- A concrete sensor schema used by the closed witnesses. -/
def sample_schema : knot_schema :=
  { value_type := 3, unit := 0, type_id := 0, name := "temp" }

/-- A concrete registered sensor used by the closed witnesses. -/
def sample_item : knot_data_item :=
  { sensor_id := 1
    config := { raw := 0 }
    schema := sample_schema
    current_val := 42
    sent_val := 0
    modbus_source := { reg_addr := 100, bit_offset := 0 } }

/-- A concrete device state with sensor 1 registered, used by the
closed witnesses. -/
def sample_thing : knot_thing :=
  { token := ""
    id := "ab"
    name := "dev"
    user_token := "u"
    modbus_slave := { id := 1, url := "m" }
    rabbitmq_url := "r"
    credentials_path := "p"
    data_items := [(1, sample_item)]
    msg_to := none }

/-- A concrete device state with an empty registry. -/
def empty_thing : knot_thing :=
  { sample_thing with data_items := [] }

/-- A concrete device state whose timeout slot is occupied. -/
def occupied_thing : knot_thing :=
  { sample_thing with msg_to := some { seconds := 3 } }

/-- C2: `device_generate_thing_id` renders the random draw with
`"%" PRIx64`, which does not zero-pad, so the draw `5` produces the
one-character id `"5"`: the id is non-empty but not 16 characters wide,
contradicting the claimed invariant. -/
theorem generate_thing_id_width_flaw :
    (device_generate_thing_id 5 sample_thing).id = "5" ∧
    (device_generate_thing_id 5 sample_thing).id.length = 1 ∧
    ¬ (device_generate_thing_id 5 sample_thing).id.length = 16 := by
  refine ⟨?_, ?_, ?_⟩ <;> decide

/-- C3: inserting a sensor entry and looking it up by the same id
returns an entry with exactly the inserted schema, config, register
address and bit offset (with zeroed values from `l_new`); this holds
for every prior registry state, so an insert over an already-present id
makes the lookup return the newly inserted values. -/
theorem data_item_insert_lookup_roundtrip (thing : knot_thing) (sensor_id : Int)
    (schema : knot_schema) (config : knot_config) (reg_addr bit_offset : Int) :
    device_data_item_lookup
        (device_set_new_data_item thing sensor_id schema config reg_addr bit_offset)
        sensor_id =
      some { sensor_id := sensor_id
             config := config
             schema := schema
             current_val := 0
             sent_val := 0
             modbus_source := { reg_addr := reg_addr, bit_offset := bit_offset } } := by
  unfold device_data_item_lookup device_set_new_data_item
  exact l_hashmap_lookup_insert thing.data_items sensor_id _

/-- C4: `on_cloud_receive` emits exactly the event the kind/error table
prescribes: REG_OK with the issued token or REG_NOT_OK for REGISTER,
AUTH_OK/AUTH_NOT_OK for AUTH, SCH_OK/SCH_NOT_OK for SCHEMA,
DATA_UPDT(list) for a non-errored UPDATE, PUB_DATA(list) for a
non-errored REQUEST, UNREG_REQ for a non-errored UNREGISTER; errored
non-handshake messages and LIST or unknown kinds emit nothing. -/
theorem cloud_receive_event_table (tok : String) (l : List Int) :
    on_cloud_receive ⟨.REGISTER_MSG, false, tok, l⟩ = ([.EVT_REG_OK tok], true) ∧
    on_cloud_receive ⟨.REGISTER_MSG, true, tok, l⟩ = ([.EVT_REG_NOT_OK], true) ∧
    on_cloud_receive ⟨.AUTH_MSG, false, tok, l⟩ = ([.EVT_AUTH_OK], true) ∧
    on_cloud_receive ⟨.AUTH_MSG, true, tok, l⟩ = ([.EVT_AUTH_NOT_OK], true) ∧
    on_cloud_receive ⟨.SCHEMA_MSG, false, tok, l⟩ = ([.EVT_SCH_OK], true) ∧
    on_cloud_receive ⟨.SCHEMA_MSG, true, tok, l⟩ = ([.EVT_SCH_NOT_OK], true) ∧
    on_cloud_receive ⟨.UPDATE_MSG, false, tok, l⟩ = ([.EVT_DATA_UPDT l], true) ∧
    on_cloud_receive ⟨.UPDATE_MSG, true, tok, l⟩ = ([], true) ∧
    on_cloud_receive ⟨.REQUEST_MSG, false, tok, l⟩ = ([.EVT_PUB_DATA l], true) ∧
    on_cloud_receive ⟨.REQUEST_MSG, true, tok, l⟩ = ([], true) ∧
    on_cloud_receive ⟨.UNREGISTER_MSG, false, tok, l⟩ = ([.EVT_UNREG_REQ], true) ∧
    on_cloud_receive ⟨.UNREGISTER_MSG, true, tok, l⟩ = ([], true) ∧
    (∀ e : Bool,
      on_cloud_receive ⟨.LIST_MSG, e, tok, l⟩ = ([], true) ∧
      on_cloud_receive ⟨.MSG_TYPES_LENGTH, e, tok, l⟩ = ([], true)) :=
  ⟨rfl, rfl, rfl, rfl, rfl, rfl, rfl, rfl, rfl, rfl, rfl, rfl,
   fun _ => ⟨rfl, rfl⟩⟩

/-- C6: for every connectivity mask, the cloud-disconnect handler does
not touch the poller and emits NOT_READY, while only the
Modbus-disconnect handler stops polling (and also emits NOT_READY). -/
theorem cloud_drop_keeps_poller (conn_mask : Nat) :
    (on_cloud_disconnected conn_mask).1 = .nop ∧
    (on_cloud_disconnected conn_mask).2.2 = .EVT_NOT_READY ∧
    (on_modbus_disconnected conn_mask).1 = .stop ∧
    (on_modbus_disconnected conn_mask).2.2 = .EVT_NOT_READY := by
  have h1 : conn_mask &&& 15 ≤ 15 := Nat.and_le_right
  have h2 : conn_mask &&& 240 ≤ 240 := Nat.and_le_right
  have hx1 : (0xFF ^^^ CLOUD : Nat) = 15 := by decide
  have hx2 : (0xFF ^^^ MODBUS : Nat) = 240 := by decide
  refine ⟨rfl, ?_, rfl, ?_⟩
  · simp only [on_cloud_disconnected, conn_handler, set_conn_bitmask,
      Bool.false_eq_true, if_false, hx1, CONNECTED_MASK]
    rw [if_pos]
    omega
  · simp only [on_modbus_disconnected, conn_handler, set_conn_bitmask,
      Bool.false_eq_true, if_false, hx2, CONNECTED_MASK]
    rw [if_pos]
    omega

/-- C7: the timeout slot holds at most one timer: create on an occupied
slot is a no-op leaving the existing timer and deadline unchanged,
create on an empty slot installs the requested timer, remove empties
the slot, and create after remove installs a fresh timer. -/
theorem msg_timeout_single_slot (thing : knot_thing) (t : l_timeout) (s s' : Int) :
    (thing.msg_to = some t → device_msg_timeout_create thing s = thing) ∧
    (thing.msg_to = none →
      (device_msg_timeout_create thing s).msg_to = some { seconds := s }) ∧
    (device_msg_timeout_remove thing).msg_to = none ∧
    (device_msg_timeout_create (device_msg_timeout_remove thing) s').msg_to =
      some { seconds := s' } := by
  refine ⟨?_, ?_, rfl, rfl⟩
  · intro h
    simp [device_msg_timeout_create, h]
  · intro h
    simp [device_msg_timeout_create, h]

/-- Closed witness for C7 at a concrete occupied slot. -/
theorem msg_timeout_single_slot_witness :
    device_msg_timeout_create occupied_thing 9 = occupied_thing ∧
    (device_msg_timeout_create (device_msg_timeout_remove occupied_thing) 7).msg_to =
      some { seconds := 7 } :=
  ⟨(msg_timeout_single_slot occupied_thing { seconds := 3 } 9 7).1 rfl,
   (msg_timeout_single_slot occupied_thing { seconds := 3 } 9 7).2.2.2⟩

/-- C10: when the external persist step fails, the call returns `-1`
and the in-memory state (token included) is unchanged; when it
succeeds, the call returns `0` and the in-memory token equals the
stored token truncated to the declared width, while the id and the
registry are untouched. -/
theorem store_credentials_atomicity (store_rc : Int) (thing : knot_thing)
    (token : String) :
    (store_rc < 0 →
      device_store_credentials_on_file store_rc thing token = (thing, -1)) ∧
    (0 ≤ store_rc →
      (device_store_credentials_on_file store_rc thing token).2 = 0 ∧
      (device_store_credentials_on_file store_rc thing token).1.token =
        token.take KNOT_PROTOCOL_TOKEN_LEN ∧
      (device_store_credentials_on_file store_rc thing token).1.id = thing.id ∧
      (device_store_credentials_on_file store_rc thing token).1.data_items =
        thing.data_items) := by
  constructor
  · intro hlt
    simp [device_store_credentials_on_file, hlt]
  · intro hge
    have hnlt : ¬ store_rc < 0 := by omega
    simp [device_store_credentials_on_file, hnlt]

/-- Closed witness for C10 at a failing and at a succeeding persist. -/
theorem store_credentials_atomicity_witness :
    device_store_credentials_on_file (-1) sample_thing "tok" = (sample_thing, -1) ∧
    (device_store_credentials_on_file 0 sample_thing "tok").1.token =
      ("tok").take KNOT_PROTOCOL_TOKEN_LEN :=
  ⟨(store_credentials_atomicity (-1) sample_thing "tok").1 (by decide),
   ((store_credentials_atomicity 0 sample_thing "tok").2 (by decide)).2.1⟩

/-- Unfolding of `on_modbus_poll_receive` for a registered sensor with
the read's outcome pinned down; shared by the poll-tick theorems. -/
theorem on_modbus_poll_receive_found
    (iface_modbus_read_data : Int → Int → Int → Int × Int)
    (config_check_value : knot_config → Int → Int → Int → Int)
    (thing : knot_thing) (id rc newv : Int) (item : knot_data_item)
    (h : l_hashmap_lookup thing.data_items id = some item)
    (hread : iface_modbus_read_data item.modbus_source.reg_addr
      item.modbus_source.bit_offset item.current_val = (rc, newv)) :
    on_modbus_poll_receive iface_modbus_read_data config_check_value thing id =
      if config_check_value item.config newv item.sent_val item.schema.value_type > 0 then
        ({ thing with data_items := (registry_update_item thing.data_items id
             { item with current_val := newv, sent_val := newv }) },
         [sm_event.EVT_PUB_DATA [id]], rc)
      else
        ({ thing with data_items := (registry_update_item thing.data_items id
             { item with current_val := newv }) },
         [], rc) := by
  simp [on_modbus_poll_receive, h, hread]

/-- C1: on a poll tick of a registered sensor whose read yields `newv`,
if the change evaluator approves then the tick followed by the ONLINE
handling of its PUB_DATA event publishes exactly the sensor's current
value at publication time (`newv`, the post-tick current value) and
afterwards the sent value equals that published value; if the evaluator
holds, nothing is published and the sent value is not updated. -/
theorem sent_value_advanced_at_publication
    (iface_modbus_read_data : Int → Int → Int → Int × Int)
    (config_check_value : knot_config → Int → Int → Int → Int)
    (thing : knot_thing) (id rc newv : Int) (item : knot_data_item)
    (h : l_hashmap_lookup thing.data_items id = some item)
    (hread : iface_modbus_read_data item.modbus_source.reg_addr
      item.modbus_source.bit_offset item.current_val = (rc, newv)) :
    (config_check_value item.config newv item.sent_val item.schema.value_type > 0 →
      (poll_tick_then_publish iface_modbus_read_data config_check_value thing id).2.1 =
        [{ device_id := thing.id
           sensor_id := item.sensor_id
           value_type := item.schema.value_type
           value := newv }] ∧
      l_hashmap_lookup
          (poll_tick_then_publish iface_modbus_read_data config_check_value thing id).1.data_items
          id =
        some { item with current_val := newv, sent_val := newv }) ∧
    (config_check_value item.config newv item.sent_val item.schema.value_type ≤ 0 →
      (poll_tick_then_publish iface_modbus_read_data config_check_value thing id).2.1 = [] ∧
      l_hashmap_lookup
          (poll_tick_then_publish iface_modbus_read_data config_check_value thing id).1.data_items
          id =
        some { item with current_val := newv }) := by
  have key := on_modbus_poll_receive_found iface_modbus_read_data config_check_value
    thing id rc newv item h hread
  constructor
  · intro hpub
    have hupd := l_hashmap_lookup_update thing.data_items id
      { item with current_val := newv, sent_val := newv } item h
    rw [if_pos hpub] at key
    simp [poll_tick_then_publish, key, events_to_publications,
      device_publish_data_list, on_publish_data, hupd]
  · intro hhold
    have hupd := l_hashmap_lookup_update thing.data_items id
      { item with current_val := newv } item h
    rw [if_neg (not_lt.mpr hhold)] at key
    simp [poll_tick_then_publish, key, events_to_publications, hupd]

/-- Closed witness for C1: sensor 1 of the sample device, a successful
read of value 7, and an evaluator that always approves. -/
theorem sent_value_advanced_at_publication_witness :
    (poll_tick_then_publish (fun _ _ _ => ((0 : Int), (7 : Int)))
        (fun _ _ _ _ => (1 : Int)) sample_thing 1).2.1 =
      [{ device_id := sample_thing.id
         sensor_id := sample_item.sensor_id
         value_type := sample_item.schema.value_type
         value := 7 }] ∧
    l_hashmap_lookup
        (poll_tick_then_publish (fun _ _ _ => ((0 : Int), (7 : Int)))
          (fun _ _ _ _ => (1 : Int)) sample_thing 1).1.data_items 1 =
      some { sample_item with current_val := 7, sent_val := 7 } :=
  (sent_value_advanced_at_publication (fun _ _ _ => (0, 7)) (fun _ _ _ _ => 1)
    sample_thing 1 0 7 sample_item rfl rfl).1 (by decide)

/-- C5: a poll tick whose sensor id is not in the registry is dropped:
for every behaviour of the Modbus reader and of the change evaluator
(neither can influence the result, so neither is consulted), the tick
returns `-EINVAL`, emits no event, and leaves the device state
unchanged. -/
theorem poll_tick_absent_id_dropped
    (iface_modbus_read_data : Int → Int → Int → Int × Int)
    (config_check_value : knot_config → Int → Int → Int → Int)
    (thing : knot_thing) (id : Int)
    (h : l_hashmap_lookup thing.data_items id = none) :
    on_modbus_poll_receive iface_modbus_read_data config_check_value thing id =
      (thing, [], -EINVAL) := by
  simp [on_modbus_poll_receive, h]

/-- Closed witness for C5 on the empty registry. -/
theorem poll_tick_absent_id_dropped_witness :
    on_modbus_poll_receive (fun _ _ _ => ((0 : Int), (7 : Int)))
        (fun _ _ _ _ => (1 : Int)) empty_thing 1 =
      (empty_thing, [], -EINVAL) :=
  poll_tick_absent_id_dropped _ _ empty_thing 1 rfl

/-- C8: handling a PUB_DATA list publishes, for each id present in the
registry, that sensor's current value, and silently skips each absent
id; in both cases the ids before and after it in the list are still
processed exactly as they would be on their own. -/
theorem publish_data_list_behavior (thing : knot_thing) (pre post : List Int)
    (i : Int) :
    (∀ item : knot_data_item, l_hashmap_lookup thing.data_items i = some item →
      device_publish_data_list thing (pre ++ i :: post) =
        device_publish_data_list thing pre ++
          { device_id := thing.id
            sensor_id := item.sensor_id
            value_type := item.schema.value_type
            value := item.current_val } ::
            device_publish_data_list thing post) ∧
    (l_hashmap_lookup thing.data_items i = none →
      device_publish_data_list thing (pre ++ i :: post) =
        device_publish_data_list thing pre ++ device_publish_data_list thing post) := by
  constructor
  · intro item h
    rw [device_publish_data_list_append]
    simp [device_publish_data_list, on_publish_data, h]
  · intro h
    rw [device_publish_data_list_append]
    simp [device_publish_data_list, on_publish_data, h]

/-- Closed witness for C8: id 2 is absent and skipped while id 1 around
it is still published; id 1 is present and publishes its current value. -/
theorem publish_data_list_behavior_witness :
    (device_publish_data_list sample_thing ([2] ++ 1 :: []) =
      device_publish_data_list sample_thing [2] ++
        { device_id := sample_thing.id
          sensor_id := sample_item.sensor_id
          value_type := sample_item.schema.value_type
          value := sample_item.current_val } ::
          device_publish_data_list sample_thing []) ∧
    (device_publish_data_list sample_thing ([1] ++ 2 :: [1]) =
      device_publish_data_list sample_thing [1] ++
        device_publish_data_list sample_thing [1]) :=
  ⟨(publish_data_list_behavior sample_thing [2] [] 1).1 sample_item rfl,
   (publish_data_list_behavior sample_thing [1] [1] 2).2 rfl⟩

/-- C9: when the Modbus read of a registered sensor fails with a
negative code but leaves the value buffer untouched, the tick still
runs the change evaluator on the sensor's existing current value, may
advance the sent value and emit a PUB_DATA event, and returns the
read's error code in either case. -/
theorem poll_read_failure_still_evaluates
    (config_check_value : knot_config → Int → Int → Int → Int)
    (thing : knot_thing) (id rc : Int) (item : knot_data_item)
    (h : l_hashmap_lookup thing.data_items id = some item)
    (hrc : rc < 0) :
    ((on_modbus_poll_receive (fun _ _ old => (rc, old)) config_check_value
        thing id).2.2 = rc) ∧
    (config_check_value item.config item.current_val item.sent_val
        item.schema.value_type > 0 →
      (on_modbus_poll_receive (fun _ _ old => (rc, old)) config_check_value
          thing id).2.1 = [sm_event.EVT_PUB_DATA [id]] ∧
      l_hashmap_lookup
          (on_modbus_poll_receive (fun _ _ old => (rc, old)) config_check_value
            thing id).1.data_items id =
        some { item with sent_val := item.current_val }) ∧
    (config_check_value item.config item.current_val item.sent_val
        item.schema.value_type ≤ 0 →
      (on_modbus_poll_receive (fun _ _ old => (rc, old)) config_check_value
          thing id).2.1 = [] ∧
      l_hashmap_lookup
          (on_modbus_poll_receive (fun _ _ old => (rc, old)) config_check_value
            thing id).1.data_items id = some item) := by
  have key := on_modbus_poll_receive_found (fun _ _ old => (rc, old))
    config_check_value thing id rc item.current_val item h rfl
  refine ⟨?_, ?_, ?_⟩
  · rw [key]
    by_cases hpub : config_check_value item.config item.current_val item.sent_val
        item.schema.value_type > 0
    · rw [if_pos hpub]
    · rw [if_neg hpub]
  · intro hpub
    have hupd := l_hashmap_lookup_update thing.data_items id
      { item with current_val := item.current_val, sent_val := item.current_val } item h
    rw [if_pos hpub] at key
    rw [key]
    exact ⟨rfl, hupd⟩
  · intro hhold
    have hupd := l_hashmap_lookup_update thing.data_items id
      { item with current_val := item.current_val } item h
    rw [if_neg (not_lt.mpr hhold)] at key
    rw [key]
    exact ⟨rfl, hupd⟩

/-- Closed witness for C9: sensor 1 of the sample device, a read
failing with `-5` that leaves the buffer, and an evaluator that always
approves. -/
theorem poll_read_failure_still_evaluates_witness :
    ((on_modbus_poll_receive (fun _ _ old => ((-5 : Int), old))
        (fun _ _ _ _ => (1 : Int)) sample_thing 1).2.2 = -5) ∧
    ((1 : Int) > 0 →
      (on_modbus_poll_receive (fun _ _ old => ((-5 : Int), old))
          (fun _ _ _ _ => (1 : Int)) sample_thing 1).2.1 =
        [sm_event.EVT_PUB_DATA [1]] ∧
      l_hashmap_lookup
          (on_modbus_poll_receive (fun _ _ old => ((-5 : Int), old))
            (fun _ _ _ _ => (1 : Int)) sample_thing 1).1.data_items 1 =
        some { sample_item with sent_val := sample_item.current_val }) ∧
    ((1 : Int) ≤ 0 →
      (on_modbus_poll_receive (fun _ _ old => ((-5 : Int), old))
          (fun _ _ _ _ => (1 : Int)) sample_thing 1).2.1 = [] ∧
      l_hashmap_lookup
          (on_modbus_poll_receive (fun _ _ old => ((-5 : Int), old))
            (fun _ _ _ _ => (1 : Int)) sample_thing 1).1.data_items 1 =
        some sample_item) :=
  poll_read_failure_still_evaluates (fun _ _ _ _ => 1) sample_thing 1 (-5)
    sample_item rfl (by decide)

end Knot
